import Mathlib

/-!
Shallow embedding of the CopilotMonitor workspace/session/thread
orchestration core: the Copilot backend adapter
(`src/services/copilot-backend.ts`), the Copilot SDK service wrapper
(`copilot-sdk.ts`), and the thread-state/history logic of the `useThreads`
hook (`applyThreadHistory`, `handleReviewExited`, the debounced history
save effect).
-/

namespace CopilotMonitor

/-- Payload fields of a Copilot SDK `SessionEvent.data` object, flattened:
each field the adapter reads is optional, mirroring duck-typed access in
`transformEvent`.  `resultContent` stands for `data.result?.content` and
`errorMessage` for `data.error?.message`. -/
structure EventData where
  deltaContent : Option String := none
  content : Option String := none
  message : Option String := none
  errorType : Option String := none
  toolCallId : Option String := none
  toolName : Option String := none
  arguments : Option String := none
  success : Option Bool := none
  resultContent : Option String := none
  errorMessage : Option String := none
  deriving DecidableEq, Repr

/-- A Copilot SDK session event as consumed by the adapter: its `type` tag,
optional `id`, and payload (`data`, absent for defensive `?? {}` paths). -/
structure SessionEvent where
  id : Option String := none
  type : String
  data : Option EventData := none
  deriving DecidableEq, Repr

/-- The `turn` object embedded in `turn/started` / `turn/completed` params. -/
structure Turn where
  id : String
  threadId : String
  deriving DecidableEq, Repr

/-- Conversation-item object literals built by `transformEvent`. -/
inductive ItemPayload where
  | agentMessage (id : String) (text : String)
  | toolStart (id : String) (toolType : String) (status : String)
      (arguments : Option String)
  | toolComplete (id : String) (toolType : String) (status : String)
      (output : String)
  deriving DecidableEq, Repr

/-- The `params` object of a canonical event, one constructor per object
shape `transformEvent` builds (plus the raw passthrough payload). -/
inductive Params where
  | deltaP (threadId : String) (itemId : String) (delta : String)
  | itemP (threadId : String) (item : ItemPayload)
  | turnP (threadId : String) (turn : Turn)
  | errorP (threadId : String) (turnId : String) (message : String)
      (code : Option String) (willRetry : Bool)
  | rawObj (d : EventData)
  deriving DecidableEq, Repr

/-- The canonical message: `{ method, params }`. -/
structure CanonicalMessage where
  method : String
  params : Params
  deriving DecidableEq, Repr

/-- The `AppServerEvent` shape: workspace id plus canonical message. -/
structure AppServerEvent where
  workspace_id : String
  message : CanonicalMessage
  deriving DecidableEq, Repr

/-- Embedding of `mapEventToMethod` from `copilot-backend.ts`: Copilot SDK event type →
Codex app-server method name, `none` for unknown types. -/
def mapEventToMethod (type : String) : Option String :=
  match type with
  | "session.idle" => some "turn/completed"
  | "session.error" => some "error"
  | "assistant.message" => some "item/completed"
  | "assistant.message_delta" => some "item/agentMessage/delta"
  | "tool.execution_start" => some "item/started"
  | "tool.execution_complete" => some "item/completed"
  | "assistant.reasoning" => some "item/reasoning/textDelta"
  | "assistant.reasoning_delta" => some "item/reasoning/textDelta"
  | "assistant.turn_start" => some "turn/started"
  | "assistant.turn_end" => some "turn/completed"
  | _ => none

/-- The empty object `{}` used by `event.data ?? {}`. -/
def emptyEventData : EventData := {}

/-- Embedding of `transformEvent` from `copilot-backend.ts`: transform a Copilot SDK
event into a CopilotMonitor `AppServerEvent`.  Unknown types fall through
to the `copilot/<rawType>` passthrough carrying `event.data ?? {}`. -/
def transformEvent (workspaceId : String) (event : SessionEvent) :
    Option AppServerEvent :=
  match mapEventToMethod event.type with
  | none =>
    some { workspace_id := workspaceId
           message := { method := "copilot/" ++ event.type
                        params := Params.rawObj (event.data.getD emptyEventData) } }
  | some method =>
    let d := event.data.getD emptyEventData
    let params : Params :=
      match event.type with
      | "assistant.message_delta" =>
        Params.deltaP workspaceId (event.id.getD "current") (d.deltaContent.getD "")
      | "assistant.message" =>
        Params.itemP workspaceId
          (ItemPayload.agentMessage (event.id.getD "current") (d.content.getD ""))
      | "session.idle" =>
        Params.turnP workspaceId { id := "current", threadId := workspaceId }
      | "session.error" =>
        Params.errorP workspaceId "current" (d.message.getD "Unknown error")
          d.errorType false
      | "tool.execution_start" =>
        Params.itemP workspaceId
          (ItemPayload.toolStart (d.toolCallId.getD "tool") (d.toolName.getD "unknown")
            "running" d.arguments)
      | "tool.execution_complete" =>
        Params.itemP workspaceId
          (ItemPayload.toolComplete (d.toolCallId.getD "tool") "unknown"
            (if d.success = some true then "completed" else "error")
            (d.resultContent.getD (d.errorMessage.getD "")))
      | "assistant.reasoning" =>
        Params.deltaP workspaceId "reasoning"
          (match d.deltaContent with
           | some x => x
           | none => d.content.getD "")
      | "assistant.reasoning_delta" =>
        Params.deltaP workspaceId "reasoning"
          (match d.deltaContent with
           | some x => x
           | none => d.content.getD "")
      | "assistant.turn_start" =>
        Params.turnP workspaceId
          { id := event.id.getD "current", threadId := workspaceId }
      | "assistant.turn_end" =>
        Params.turnP workspaceId
          { id := event.id.getD "current", threadId := workspaceId }
      | _ => Params.rawObj (event.data.getD emptyEventData)
    some { workspace_id := workspaceId
           message := { method := method, params := params } }

/-- Embedding of `sendUserMessage` from `copilot-backend.ts`: unconditionally emits a
`turn/started` event with a locally generated `turn-<Date.now()>` id, then
performs the backend send (whose outcome is the `sendResult` parameter).
Returns the emitted events and the overall outcome. -/
def sendUserMessage (workspaceId threadId _text : String) (now : Nat)
    (sendResult : Except String String) :
    List AppServerEvent × Except String Unit :=
  let turnEvent : AppServerEvent :=
    { workspace_id := workspaceId
      message := { method := "turn/started"
                   params := Params.turnP threadId
                     { id := "turn-" ++ toString now, threadId := threadId } } }
  ([turnEvent], sendResult.map (fun _ => ()))

/-! ### Copilot SDK service state (`copilot-sdk.ts`) -/

/-- Embedding of `CopilotWorkspaceClient` from `copilot-sdk.ts`; the `client` handle is
external, the session is identified by its id. -/
structure CopilotWorkspaceClient where
  session : Option String
  workspacePath : String
  connected : Bool
  deriving DecidableEq, Repr

/-- The module-level `workspaceClients` map of `copilot-sdk.ts`. -/
structure SdkState where
  workspaceClients : String → Option CopilotWorkspaceClient

/-- Pointwise update of a string-keyed map. -/
def updf {α : Type} (m : String → α) (k : String) (v : α) : String → α :=
  fun x => if x = k then v else m x

/-- The error message thrown by `createSession`, `listModels` and
`getAuthStatus` when the workspace is not in `workspaceClients`. -/
def notConnectedError (workspaceId : String) : String :=
  "Workspace " ++ workspaceId ++ " is not connected"

/-- Embedding of `abortSession` from `copilot-sdk.ts`: returns early when the workspace
has no entry or no session; otherwise calls `session.abort()` (recorded by
the boolean). The client map is never mutated. -/
def abortSession (st : SdkState) (workspaceId : String) : SdkState × Bool :=
  match st.workspaceClients workspaceId with
  | none => (st, false)
  | some w =>
    match w.session with
    | none => (st, false)
    | some _ => (st, true)

/-- Embedding of `interruptTurn` from `copilot-backend.ts`: delegates to
`copilotSdk.abortSession`. -/
def interruptTurn (st : SdkState) (workspaceId : String) : SdkState × Bool :=
  abortSession st workspaceId

/-- Embedding of `createSession` from `copilot-sdk.ts`: throws when the workspace is not
connected; otherwise destroys any existing session and installs the session
created by the client (its id is the `newSessionId` parameter). -/
def createSession (st : SdkState) (workspaceId newSessionId : String) :
    SdkState × Except String String :=
  match st.workspaceClients workspaceId with
  | none => (st, Except.error (notConnectedError workspaceId))
  | some w =>
    ({ workspaceClients := updf st.workspaceClients workspaceId
        (some { w with session := some newSessionId }) },
     Except.ok newSessionId)

/-- Embedding of `listModels` from `copilot-sdk.ts`: throws when the workspace is not
connected; otherwise maps the client's models through `name ?? id`.  A
model is a pair `(id, name?)`. -/
def listModels (st : SdkState) (workspaceId : String)
    (clientModels : List (String × Option String)) :
    SdkState × Except String (List (String × String)) :=
  match st.workspaceClients workspaceId with
  | none => (st, Except.error (notConnectedError workspaceId))
  | some _ =>
    (st, Except.ok (clientModels.map (fun m => (m.1, m.2.getD m.1))))

/-- The auth status returned by the external `client.getAuthStatus()`. -/
structure AuthStatus where
  isAuthenticated : Bool
  login : Option String
  deriving DecidableEq, Repr

/-- Embedding of `getAuthStatus` from `copilot-sdk.ts`: throws when the workspace is not
connected; otherwise returns `{authenticated, user}` from the client's
status. -/
def getAuthStatus (st : SdkState) (workspaceId : String) (status : AuthStatus) :
    SdkState × Except String (Bool × Option String) :=
  match st.workspaceClients workspaceId with
  | none => (st, Except.error (notConnectedError workspaceId))
  | some _ => (st, Except.ok (status.isAuthenticated, status.login))

/-! ### Thread state (`useThreads` and its reducer) -/

/-- A thread summary as stored in `threadsByWorkspace`. -/
structure ThreadSummary where
  id : String
  name : Option String := none
  updatedAt : Option Nat := none
  deriving DecidableEq, Repr

/-- A conversation item; `applyThreadHistory` and `addAssistantMessage`
only inspect message items (`kind`/`role`/`text`), other kinds are
carried opaquely. -/
inductive ConversationItem where
  | message (role : String) (text : String)
  | other (kind : String)
  deriving DecidableEq, Repr

/-- Per-thread status: `{ isProcessing, isReviewing, activeTurnId }`. -/
structure ThreadStatus where
  isProcessing : Bool := false
  isReviewing : Bool := false
  activeTurnId : Option String := none
  deriving DecidableEq, Repr

/-- The slice of the `useThreads` state the embedded operations touch,
together with the hook's refs (`loadedThreadsRef` as `loadedThreads`,
`detachedReviewNoticeRef` as `noticeKeys`, thread-activity storage). -/
structure ThreadsState where
  threadsByWorkspace : String → List ThreadSummary
  itemsByThread : String → List ConversationItem
  threadStatusById : String → Option ThreadStatus
  threadParentById : String → Option String
  activeThreadIdByWorkspace : String → Option String
  unreadByThread : String → Bool
  lastAgentMessageByThread : String → Option (String × Nat)
  loadedThreads : String → Bool
  threadActivity : String × String → Option Nat
  noticeKeys : List String

/-- Pointwise update of a pair-keyed map. -/
def updp {α : Type} (m : String × String → α) (k : String × String) (v : α) :
    String × String → α :=
  fun x => if x = k then v else m x

/-- Modelled from the spec: the `setThreads` reducer action of
`useThreadsReducer` (not among the provided sources) replaces a
workspace's thread list. -/
def setThreads (st : ThreadsState) (workspaceId : String)
    (threads : List ThreadSummary) : ThreadsState :=
  { st with threadsByWorkspace := updf st.threadsByWorkspace workspaceId threads }

/-- Modelled from the spec: the `setThreadItems` reducer action replaces a
thread's item log wholesale (§3 ConversationItem: "replaceable wholesale on
resume-from-disk"). -/
def setThreadItems (st : ThreadsState) (threadId : String)
    (items : List ConversationItem) : ThreadsState :=
  { st with itemsByThread := updf st.itemsByThread threadId items }

/-- Modelled from the spec: the `setLastAgentMessage` reducer action
records a thread's last assistant message and timestamp. -/
def setLastAgentMessage (st : ThreadsState) (threadId text : String)
    (timestamp : Nat) : ThreadsState :=
  let m := updf st.lastAgentMessageByThread threadId (some (text, timestamp))
  { st with lastAgentMessageByThread := m }

/-- Modelled from the spec: the `setThreadParent` reducer action records a
thread's parent id (§3 Thread parent linkage). -/
def setThreadParent (st : ThreadsState) (threadId parentId : String) :
    ThreadsState :=
  { st with threadParentById := updf st.threadParentById threadId (some parentId) }

/-- Modelled from the spec: the `setActiveThreadId` reducer action. -/
def setActiveThreadId (st : ThreadsState) (workspaceId : String)
    (threadId : Option String) : ThreadsState :=
  let m := updf st.activeThreadIdByWorkspace workspaceId threadId
  { st with activeThreadIdByWorkspace := m }

/-- Modelled from the spec: the `addAssistantMessage` reducer action
appends an assistant message item to a thread's ordered item log (§4.3:
item events append to the ordered log). -/
def addAssistantMessage (st : ThreadsState) (threadId text : String) :
    ThreadsState :=
  let m := updf st.itemsByThread threadId
    (st.itemsByThread threadId ++ [ConversationItem.message "assistant" text])
  { st with itemsByThread := m }

/-- Modelled from the spec: the `markUnread` reducer action sets a
thread's unread flag. -/
def markUnread (st : ThreadsState) (threadId : String) (hasUnread : Bool) :
    ThreadsState :=
  { st with unreadByThread := updf st.unreadByThread threadId hasUnread }

/-- Modelled from the spec: `markProcessing` of `useThreadStatus` (not
among the provided sources) sets a thread's `isProcessing` flag (§4.3). -/
def markProcessing (st : ThreadsState) (threadId : String) (value : Bool) :
    ThreadsState :=
  let m := updf st.threadStatusById threadId
    (some { (st.threadStatusById threadId).getD {} with isProcessing := value })
  { st with threadStatusById := m }

/-- Modelled from the spec: `markReviewing` of `useThreadStatus` sets a
thread's `isReviewing` flag (§4.3). -/
def markReviewing (st : ThreadsState) (threadId : String) (value : Bool) :
    ThreadsState :=
  let m := updf st.threadStatusById threadId
    (some { (st.threadStatusById threadId).getD {} with isReviewing := value })
  { st with threadStatusById := m }

/-- Modelled from the spec: `setActiveTurnId` of `useThreadStatus` sets a
thread's active turn id (§4.3). -/
def setActiveTurnId (st : ThreadsState) (threadId : String)
    (turnId : Option String) : ThreadsState :=
  let m := updf st.threadStatusById threadId
    (some { (st.threadStatusById threadId).getD {} with activeTurnId := turnId })
  { st with threadStatusById := m }

/-- Embedding of `recordThreadActivity` of `useThreadStorage`: stores a per
workspace/thread activity timestamp. -/
def recordThreadActivity (st : ThreadsState) (workspaceId threadId : String)
    (timestamp : Nat) : ThreadsState :=
  let m := updp st.threadActivity (workspaceId, threadId) (some timestamp)
  { st with threadActivity := m }

/-- Modelled from the spec: the `setThreadTimestamp` reducer action stamps
`updatedAt` on the matching thread summary of the workspace. -/
def setThreadTimestamp (st : ThreadsState) (workspaceId threadId : String)
    (timestamp : Nat) : ThreadsState :=
  let m := updf st.threadsByWorkspace workspaceId
    ((st.threadsByWorkspace workspaceId).map
      (fun t => if t.id = threadId then { t with updatedAt := some timestamp } else t))
  { st with threadsByWorkspace := m }

/-- Sets `loadedThreadsRef.current[threadId] = true`. -/
def markThreadLoaded (st : ThreadsState) (threadId : String) : ThreadsState :=
  { st with loadedThreads := updf st.loadedThreads threadId true }

/-! ### History persistence (`useThreads`) -/

/-- Embedding of `ThreadHistorySnapshot` as read by `applyThreadHistory`.
`threads` models `Array.isArray(snapshot.threads) ? snapshot.threads : []`
(a missing or non-array field is the empty list); `itemsByThread` returns
`none` for a missing or non-array entry; `threadParentById` is the entry
list of the persisted parent map. -/
structure ThreadHistorySnapshot where
  version : Nat
  workspaceId : String
  activeThreadId : Option String
  threads : List ThreadSummary
  itemsByThread : String → Option (List ConversationItem)
  threadParentById : List (String × String)
  savedAt : Nat

/-- The `lastAgent` lookup of `applyThreadHistory`: last item that is a
message with role `assistant`, returning its text. -/
def lastAssistantText (items : List ConversationItem) : Option String :=
  match items.reverse.find? (fun i =>
      match i with
      | ConversationItem.message role _ => role == "assistant"
      | ConversationItem.other _ => false) with
  | some (ConversationItem.message _ text) => some text
  | _ => none

/-- JS truthiness of a `string | null | undefined` id. -/
def isFalsyId : Option String → Bool
  | none => true
  | some s => s == ""

/-- The per-thread body of the `mergedThreads.forEach` loop in
`applyThreadHistory`.  `st0` is the hook's state captured by the closure
(all reads go against it), `acc` accumulates the queued dispatches. -/
def applyHistoryItemsStep (st0 : ThreadsState) (snapshot : ThreadHistorySnapshot)
    (now : Nat) (acc : ThreadsState) (thread : ThreadSummary) : ThreadsState :=
  match snapshot.itemsByThread thread.id with
  | none => acc
  | some items =>
    if items.isEmpty then acc
    else
      let acc1 :=
        if (st0.itemsByThread thread.id).isEmpty then
          setThreadItems acc thread.id items
        else acc
      let acc2 :=
        match lastAssistantText items with
        | some text =>
          setLastAgentMessage acc1 thread.id text (thread.updatedAt.getD now)
        | none => acc1
      markThreadLoaded acc2 thread.id

/-- The `additions` of `applyThreadHistory`: persisted threads with a
truthy id whose id is not among the live workspace threads. -/
def additionsOf (st : ThreadsState) (workspaceId : String)
    (snapshot : ThreadHistorySnapshot) : List ThreadSummary :=
  let existingIds := (st.threadsByWorkspace workspaceId).map (fun t => t.id)
  snapshot.threads.filter (fun t => !(t.id == "") && !(existingIds.contains t.id))

/-- The merged thread list computed by `applyThreadHistory`: live threads
plus the additions, sorted by `(b.updatedAt ?? 0) - (a.updatedAt ?? 0)`
(descending, stable). -/
def mergedThreadsOf (st : ThreadsState) (workspaceId : String)
    (snapshot : ThreadHistorySnapshot) : List ThreadSummary :=
  (st.threadsByWorkspace workspaceId ++ additionsOf st workspaceId snapshot).mergeSort
    (fun a b => decide ((b.updatedAt.getD 0) ≤ (a.updatedAt.getD 0)))

/-- Stage 1 of `applyThreadHistory`: the `setThreads` dispatch, fired only
when the merge added threads, or when there were no live threads and the
snapshot supplies some. -/
def applyHistoryThreadsStage (st : ThreadsState) (workspaceId : String)
    (snapshot : ThreadHistorySnapshot) : ThreadsState :=
  if 0 < (mergedThreadsOf st workspaceId snapshot).length ∧
      0 < (additionsOf st workspaceId snapshot).length then
    setThreads st workspaceId (mergedThreadsOf st workspaceId snapshot)
  else if (st.threadsByWorkspace workspaceId).length = 0 ∧
      0 < (mergedThreadsOf st workspaceId snapshot).length then
    setThreads st workspaceId (mergedThreadsOf st workspaceId snapshot)
  else st

/-- Stage 3 of `applyThreadHistory`: replay the persisted parent map
(truthy parent ids only). -/
def applyHistoryParentsStage (snapshot : ThreadHistorySnapshot)
    (st : ThreadsState) : ThreadsState :=
  snapshot.threadParentById.foldl
    (fun acc p => if !(p.2 == "") then setThreadParent acc p.1 p.2 else acc) st

/-- Stage 4 of `applyThreadHistory`: adopt the persisted active thread id
when the workspace has none (`st0` is the hook state the callback read). -/
def applyHistoryActiveStage (st0 : ThreadsState) (workspaceId : String)
    (snapshot : ThreadHistorySnapshot) (st : ThreadsState) : ThreadsState :=
  match snapshot.activeThreadId with
  | some tid =>
    if !(tid == "") && isFalsyId (st0.activeThreadIdByWorkspace workspaceId) then
      setActiveThreadId st workspaceId (some tid)
    else st
  | none => st

/-- Embedding of `applyThreadHistory` from `useThreads`: merge a persisted snapshot
into the live state.  All reads (`state.threadsByWorkspace`,
`state.itemsByThread`, `state.activeThreadIdByWorkspace`) use the hook
state `st` captured by the callback; the queued dispatches are applied in
order.  `now` stands for `Date.now()`. -/
def applyThreadHistory (st : ThreadsState) (workspaceId : String)
    (snapshot : ThreadHistorySnapshot) (now : Nat) : ThreadsState :=
  applyHistoryActiveStage st workspaceId snapshot
    (applyHistoryParentsStage snapshot
      ((mergedThreadsOf st workspaceId snapshot).foldl
        (applyHistoryItemsStep st snapshot now)
        (applyHistoryThreadsStage st workspaceId snapshot)))

/-- The notice text `handleReviewExited` appends to the parent thread. -/
def reviewNoticeText (threadId : String) : String :=
  "Detached review completed. [Open review thread](/thread/" ++ threadId ++ ")"

/-- The dedup key `` `${parentId}->${threadId}` `` of the detached-review
notice. -/
def noticeKeyOf (parentId threadId : String) : String :=
  parentId ++ "->" ++ threadId

/-- Embedding of `handleReviewExited` from `useThreads`: a detached review thread
reached a terminal state.  `activeThreadId` is the hook's currently
active thread captured by the closure; `now` stands for `Date.now()`. -/
def handleReviewExited (st : ThreadsState) (workspaceId threadId : String)
    (activeThreadId : Option String) (now : Nat) : ThreadsState :=
  match st.threadParentById threadId with
  | none => st
  | some parentId =>
    if parentId = threadId then st
    else
      match st.threadStatusById parentId with
      | none => st
      | some parentStatus =>
        if !parentStatus.isReviewing then st
        else
          let st1 := markReviewing st parentId false
          let st2 := markProcessing st1 parentId false
          let st3 := setActiveTurnId st2 parentId none
          let st4 := recordThreadActivity st3 workspaceId parentId now
          let st5 := setThreadTimestamp st4 workspaceId parentId now
          let noticeKey := noticeKeyOf parentId threadId
          let st6 :=
            if noticeKey ∈ st5.noticeKeys then st5
            else
              addAssistantMessage
                { st5 with noticeKeys := noticeKey :: st5.noticeKeys }
                parentId (reviewNoticeText threadId)
          if activeThreadId ≠ some parentId then markUnread st6 parentId true
          else st6

/-- The snapshot object literal returned by `buildThreadHistorySnapshot`,
with `itemsByThread` and `threadParentById` as entry lists in JS object
insertion order. -/
structure BuiltThreadHistorySnapshot where
  version : Nat
  workspaceId : String
  activeThreadId : Option String
  threads : List ThreadSummary
  itemsByThread : List (String × List ConversationItem)
  threadParentById : List (String × String)
  savedAt : Nat
  deriving DecidableEq, Repr

/-- Embedding of `buildThreadHistorySnapshot` from `useThreads`: collect
the workspace's threads, attach each thread's non-empty item log and each
truthy parent id (the source fills both records in one `forEach`; the two
folds build the same entry lists), and stamp `savedAt := now`
(`Date.now()` in the source). -/
def buildThreadHistorySnapshot (st : ThreadsState) (workspaceId : String)
    (now : Nat) : BuiltThreadHistorySnapshot :=
  let threads := st.threadsByWorkspace workspaceId
  let itemsByThread := threads.foldl (fun acc thread =>
      if !(st.itemsByThread thread.id).isEmpty then
        acc ++ [(thread.id, st.itemsByThread thread.id)]
      else acc) []
  let threadParentById := threads.foldl (fun acc thread =>
      match st.threadParentById thread.id with
      | some parentId =>
        if !(parentId == "") then acc ++ [(thread.id, parentId)] else acc
      | none => acc) []
  { version := 1
    workspaceId := workspaceId
    activeThreadId := st.activeThreadIdByWorkspace workspaceId
    threads := threads
    itemsByThread := itemsByThread
    threadParentById := threadParentById
    savedAt := now }

/-- The state of the debounced history-save effect of `useThreads`:
`lastSavedHistoryRef` plus the log of writes performed via
`saveThreadHistory`.  The source compares `JSON.stringify` outputs;
stringify is deterministic and injective on built snapshots, so its
string comparison coincides with structural comparison of the built
snapshot, which therefore stands for the serialized form here. -/
structure HistorySaveState where
  lastSavedHistory : String → Option BuiltThreadHistorySnapshot
  writes : List (String × BuiltThreadHistorySnapshot)

/-- The per-workspace body of the history-save effect: build and
serialize the snapshot of the current state at time `now`, skip the write
when the serialized form matches the last write recorded for the
workspace, otherwise record it and write.  The compared payload includes
the `savedAt` stamp. -/
def saveWorkspaceHistory (s : HistorySaveState) (st : ThreadsState)
    (workspaceId : String) (now : Nat) : HistorySaveState :=
  let snapshot := buildThreadHistorySnapshot st workspaceId now
  if s.lastSavedHistory workspaceId = some snapshot then s
  else
    { lastSavedHistory := updf s.lastSavedHistory workspaceId (some snapshot)
      writes := s.writes ++ [(workspaceId, snapshot)] }

/-- A save-effect state before any write. -/
def initialHistorySaveState : HistorySaveState where
  lastSavedHistory := fun _ => none
  writes := []

/-! ### Orchestrator-level pieces modelled from the spec -/

/-- Modelled from the spec: the orchestrator-level `sendUserMessage`
command (`useThreadMessaging`, not among the provided sources).  Per §4.4
it "rejects with `Busy` if thread is already Processing" — §3 states this
invariant is "enforced by the orchestrator, not the backend" — and
otherwise starts a turn via the backend adapter's `sendUserMessage`,
entering Processing with the generated turn id (§4.3). -/
def orchestratorSendUserMessage (st : ThreadsState)
    (workspaceId threadId _text : String) (now : Nat) :
    ThreadsState × List AppServerEvent × Except String Unit :=
  if ((st.threadStatusById threadId).getD {}).isProcessing then
    (st, [], Except.error "Busy")
  else
    let turnId := "turn-" ++ toString now
    let ev : AppServerEvent :=
      { workspace_id := workspaceId
        message := { method := "turn/started"
                     params := Params.turnP threadId
                       { id := turnId, threadId := threadId } } }
    let st1 := setActiveTurnId (markProcessing st threadId true) threadId (some turnId)
    (st1, [ev], Except.ok ())

/-- Modelled from the spec: applying a `turn/started` canonical event to
the thread-status map (`useThreadEventHandlers`, not among the provided
sources): §4.3 "turn/started → set Processing, set activeTurnId". -/
def applyTurnStarted (statusById : String → Option ThreadStatus)
    (threadId turnId : String) : String → Option ThreadStatus :=
  fun t =>
    if t = threadId then
      some { (statusById t).getD {} with
             isProcessing := true, activeTurnId := some turnId }
    else statusById t

/-! ### Concrete fixtures used to instantiate the theorems -/

/-- A thread state whose only populated entry is thread `T`, currently
Processing turn `t0`. -/
def demoBusyState : ThreadsState where
  threadsByWorkspace := fun _ => []
  itemsByThread := fun _ => []
  threadStatusById := fun t =>
    if t = "T" then
      some { isProcessing := true, isReviewing := false, activeTurnId := some "t0" }
    else none
  threadParentById := fun _ => none
  activeThreadIdByWorkspace := fun _ => none
  unreadByThread := fun _ => false
  lastAgentMessageByThread := fun _ => none
  loadedThreads := fun _ => false
  threadActivity := fun _ => none
  noticeKeys := []

/-- A thread state with a detached review thread `R` whose parent `P` is
currently Reviewing. -/
def demoReviewState : ThreadsState where
  threadsByWorkspace := fun w => if w = "W" then [{ id := "P" }, { id := "R" }] else []
  itemsByThread := fun _ => []
  threadStatusById := fun t =>
    if t = "P" then
      some { isProcessing := false, isReviewing := true, activeTurnId := some "r1" }
    else none
  threadParentById := fun t => if t = "R" then some "P" else none
  activeThreadIdByWorkspace := fun _ => none
  unreadByThread := fun _ => false
  lastAgentMessageByThread := fun _ => none
  loadedThreads := fun _ => false
  threadActivity := fun _ => none
  noticeKeys := []

/-- A thread state with one live thread `live` (non-empty item log) in
workspace `W`. -/
def demoMergeState : ThreadsState where
  threadsByWorkspace := fun w =>
    if w = "W" then [{ id := "live", updatedAt := some 5 }] else []
  itemsByThread := fun t =>
    if t = "live" then [ConversationItem.message "user" "hi"] else []
  threadStatusById := fun _ => none
  threadParentById := fun _ => none
  activeThreadIdByWorkspace := fun _ => none
  unreadByThread := fun _ => false
  lastAgentMessageByThread := fun _ => none
  loadedThreads := fun _ => false
  threadActivity := fun _ => none
  noticeKeys := []

/-- A persisted snapshot carrying a new thread `new` and stale items for
the live thread `live`. -/
def demoSnapshot : ThreadHistorySnapshot where
  version := 1
  workspaceId := "W"
  activeThreadId := some "new"
  threads := [{ id := "new", updatedAt := some 9 }, { id := "live", updatedAt := some 1 }]
  itemsByThread := fun t =>
    if t = "new" then some [ConversationItem.message "assistant" "done"]
    else if t = "live" then some [ConversationItem.message "assistant" "stale"]
    else none
  threadParentById := [("new", "live")]
  savedAt := 10

/-- An SDK state with no connected workspaces. -/
def demoSdkState : SdkState where
  workspaceClients := fun _ => none

/-! ## Theorems -/

/-- Auxiliary: `List.foldl` preserves any invariant each step preserves. -/
theorem foldl_preserves {σ β : Type} (P : σ → Prop) (f : σ → β → σ)
    (hf : ∀ s b, P s → P (f s b)) :
    ∀ (l : List β) (s : σ), P s → P (l.foldl f s)
  | [], _, hs => hs
  | b :: l, s, hs => foldl_preserves P f hf l (f s b) (hf s b hs)

/-- The per-thread items step never touches `threadsByWorkspace`. -/
theorem applyHistoryItemsStep_threadsByWorkspace (st0 : ThreadsState)
    (snapshot : ThreadHistorySnapshot) (now : Nat) (acc : ThreadsState)
    (thread : ThreadSummary) :
    (applyHistoryItemsStep st0 snapshot now acc thread).threadsByWorkspace =
      acc.threadsByWorkspace := by
  unfold applyHistoryItemsStep
  cases hsnap : snapshot.itemsByThread thread.id with
  | none => rfl
  | some items =>
    by_cases hi : items.isEmpty
    · simp [hi]
    · by_cases hc : (st0.itemsByThread thread.id).isEmpty <;>
        cases hl : lastAssistantText items <;>
          simp [hi, hc, hl, setThreadItems, setLastAgentMessage, markThreadLoaded]

/-- The per-thread items step leaves a thread's item log unchanged when
the live log (read from the captured hook state `st0`) is non-empty. -/
theorem applyHistoryItemsStep_itemsByThread_frozen (st0 : ThreadsState)
    (snapshot : ThreadHistorySnapshot) (now : Nat) (acc : ThreadsState)
    (thread : ThreadSummary) (tid : String)
    (hacc : acc.itemsByThread tid = st0.itemsByThread tid)
    (hlive : st0.itemsByThread tid ≠ []) :
    (applyHistoryItemsStep st0 snapshot now acc thread).itemsByThread tid =
      st0.itemsByThread tid := by
  unfold applyHistoryItemsStep
  cases hsnap : snapshot.itemsByThread thread.id with
  | none => exact hacc
  | some items =>
    by_cases hi : items.isEmpty
    · simp [hi, hacc]
    · by_cases hc : (st0.itemsByThread thread.id).isEmpty
      · have htid : tid ≠ thread.id := by
          intro he
          rw [← he] at hc
          exact hlive (List.isEmpty_iff.mp hc)
        cases hl : lastAssistantText items <;>
          simp [hi, hc, hl, setThreadItems, setLastAgentMessage, markThreadLoaded,
            updf, htid, hacc]
      · cases hl : lastAssistantText items <;>
          simp [hi, hc, hl, setLastAgentMessage, markThreadLoaded, hacc]

/-- The parents stage never touches `threadsByWorkspace`. -/
theorem applyHistoryParentsStage_threadsByWorkspace
    (snapshot : ThreadHistorySnapshot) (st : ThreadsState) :
    (applyHistoryParentsStage snapshot st).threadsByWorkspace =
      st.threadsByWorkspace := by
  unfold applyHistoryParentsStage
  refine foldl_preserves (fun s : ThreadsState => s.threadsByWorkspace = st.threadsByWorkspace)
    _ ?_ _ _ rfl
  intro s p hs
  by_cases hp : !(p.2 == "") <;> simp [hp, setThreadParent, hs]

/-- The parents stage never touches `itemsByThread`. -/
theorem applyHistoryParentsStage_itemsByThread
    (snapshot : ThreadHistorySnapshot) (st : ThreadsState) :
    (applyHistoryParentsStage snapshot st).itemsByThread = st.itemsByThread := by
  unfold applyHistoryParentsStage
  refine foldl_preserves (fun s : ThreadsState => s.itemsByThread = st.itemsByThread)
    _ ?_ _ _ rfl
  intro s p hs
  by_cases hp : !(p.2 == "") <;> simp [hp, setThreadParent, hs]

/-- The active-thread stage never touches `threadsByWorkspace`. -/
theorem applyHistoryActiveStage_threadsByWorkspace (st0 : ThreadsState)
    (workspaceId : String) (snapshot : ThreadHistorySnapshot) (st : ThreadsState) :
    (applyHistoryActiveStage st0 workspaceId snapshot st).threadsByWorkspace =
      st.threadsByWorkspace := by
  unfold applyHistoryActiveStage
  cases snapshot.activeThreadId with
  | none => rfl
  | some tid =>
    by_cases hc : !(tid == "") && isFalsyId (st0.activeThreadIdByWorkspace workspaceId) <;>
      simp [hc, setActiveThreadId]

/-- The active-thread stage never touches `itemsByThread`. -/
theorem applyHistoryActiveStage_itemsByThread (st0 : ThreadsState)
    (workspaceId : String) (snapshot : ThreadHistorySnapshot) (st : ThreadsState) :
    (applyHistoryActiveStage st0 workspaceId snapshot st).itemsByThread =
      st.itemsByThread := by
  unfold applyHistoryActiveStage
  cases snapshot.activeThreadId with
  | none => rfl
  | some tid =>
    by_cases hc : !(tid == "") && isFalsyId (st0.activeThreadIdByWorkspace workspaceId) <;>
      simp [hc, setActiveThreadId]

/-- The threads stage never touches `itemsByThread`. -/
theorem applyHistoryThreadsStage_itemsByThread (st : ThreadsState)
    (workspaceId : String) (snapshot : ThreadHistorySnapshot) :
    (applyHistoryThreadsStage st workspaceId snapshot).itemsByThread =
      st.itemsByThread := by
  unfold applyHistoryThreadsStage
  split
  · rfl
  · split <;> rfl

/-- After the threads stage, the workspace's list is either the merged
list or the untouched live list. -/
theorem applyHistoryThreadsStage_cases (st : ThreadsState)
    (workspaceId : String) (snapshot : ThreadHistorySnapshot) :
    (applyHistoryThreadsStage st workspaceId snapshot).threadsByWorkspace
        workspaceId = mergedThreadsOf st workspaceId snapshot ∨
    (applyHistoryThreadsStage st workspaceId snapshot).threadsByWorkspace
        workspaceId = st.threadsByWorkspace workspaceId := by
  unfold applyHistoryThreadsStage
  split
  · exact Or.inl (by simp [setThreads, updf])
  · split
    · exact Or.inl (by simp [setThreads, updf])
    · exact Or.inr rfl

/-- Membership in the merged list is membership in the live list or in
the additions. -/
theorem mem_mergedThreadsOf (st : ThreadsState) (workspaceId : String)
    (snapshot : ThreadHistorySnapshot) (u : ThreadSummary) :
    u ∈ mergedThreadsOf st workspaceId snapshot ↔
      u ∈ st.threadsByWorkspace workspaceId ∨
        u ∈ additionsOf st workspaceId snapshot := by
  unfold mergedThreadsOf
  rw [List.mem_mergeSort, List.mem_append]

/-- Every addition is a persisted thread whose id is new. -/
theorem mem_additionsOf (st : ThreadsState) (workspaceId : String)
    (snapshot : ThreadHistorySnapshot) (u : ThreadSummary)
    (h : u ∈ additionsOf st workspaceId snapshot) :
    u ∈ snapshot.threads ∧
      ∀ v ∈ st.threadsByWorkspace workspaceId, v.id ≠ u.id := by
  unfold additionsOf at h
  rw [List.mem_filter] at h
  obtain ⟨h1, h2⟩ := h
  refine ⟨h1, ?_⟩
  intro v hv he
  simp only [Bool.and_eq_true, Bool.not_eq_true'] at h2
  have : u.id ∈ (st.threadsByWorkspace workspaceId).map (fun t => t.id) :=
    List.mem_map.mpr ⟨v, hv, he⟩
  have hcontains :
      ((st.threadsByWorkspace workspaceId).map (fun t => t.id)).contains u.id = true :=
    List.elem_eq_true_of_mem this
  rw [h2.2] at hcontains
  cases hcontains

/-- Function `applyThreadHistory` only changes `threadsByWorkspace` in the threads
stage. -/
theorem applyThreadHistory_threadsByWorkspace (st : ThreadsState)
    (workspaceId : String) (snapshot : ThreadHistorySnapshot) (now : Nat) :
    (applyThreadHistory st workspaceId snapshot now).threadsByWorkspace =
      (applyHistoryThreadsStage st workspaceId snapshot).threadsByWorkspace := by
  unfold applyThreadHistory
  rw [applyHistoryActiveStage_threadsByWorkspace,
    applyHistoryParentsStage_threadsByWorkspace]
  exact foldl_preserves
    (fun s : ThreadsState => s.threadsByWorkspace =
      (applyHistoryThreadsStage st workspaceId snapshot).threadsByWorkspace)
    _ (fun s b hs =>
      (applyHistoryItemsStep_threadsByWorkspace st snapshot now s b).trans hs)
    _ _ rfl

/-- C3: merge-on-load only adds persisted threads whose ids are not
already present, never removes a live in-memory thread, and never
replaces a non-empty live item log with persisted items. -/
theorem history_merge_preserves_live (st : ThreadsState) (workspaceId : String)
    (snapshot : ThreadHistorySnapshot) (now : Nat) (t : ThreadSummary) (tid : String)
    (hmem : t ∈ st.threadsByWorkspace workspaceId)
    (hlive : st.itemsByThread tid ≠ []) :
    t ∈ (applyThreadHistory st workspaceId snapshot now).threadsByWorkspace
        workspaceId ∧
    (applyThreadHistory st workspaceId snapshot now).itemsByThread tid =
      st.itemsByThread tid ∧
    ∀ u ∈ (applyThreadHistory st workspaceId snapshot now).threadsByWorkspace
        workspaceId,
      u ∈ st.threadsByWorkspace workspaceId ∨
        (u ∈ snapshot.threads ∧
          ∀ v ∈ st.threadsByWorkspace workspaceId, v.id ≠ u.id) := by
  have hws := applyThreadHistory_threadsByWorkspace st workspaceId snapshot now
  have hcases := applyHistoryThreadsStage_cases st workspaceId snapshot
  refine ⟨?_, ?_, ?_⟩
  · rw [congrFun hws workspaceId]
    rcases hcases with hc | hc <;> rw [hc]
    · exact (mem_mergedThreadsOf st workspaceId snapshot t).mpr (Or.inl hmem)
    · exact hmem
  · unfold applyThreadHistory
    rw [congrFun (applyHistoryActiveStage_itemsByThread st workspaceId snapshot _) tid,
      congrFun (applyHistoryParentsStage_itemsByThread snapshot _) tid]
    exact foldl_preserves (fun s : ThreadsState => s.itemsByThread tid = st.itemsByThread tid)
      _ (fun s b hs =>
          applyHistoryItemsStep_itemsByThread_frozen st snapshot now s b tid hs hlive)
      _ _ (congrFun (applyHistoryThreadsStage_itemsByThread st workspaceId snapshot) tid)
  · intro u hu
    rw [congrFun hws workspaceId] at hu
    rcases hcases with hc | hc <;> rw [hc] at hu
    · rcases (mem_mergedThreadsOf st workspaceId snapshot u).mp hu with h1 | h1
      · exact Or.inl h1
      · exact Or.inr (mem_additionsOf st workspaceId snapshot u h1)
    · exact Or.inl hu

/-- Witness for C3: the live thread with a non-empty item log survives a
merge that adds a persisted thread carrying stale items for it. -/
theorem history_merge_preserves_live_witness :
    ({ id := "live", updatedAt := some 5 } : ThreadSummary) ∈
      (applyThreadHistory demoMergeState "W" demoSnapshot 20).threadsByWorkspace "W" ∧
    (applyThreadHistory demoMergeState "W" demoSnapshot 20).itemsByThread "live" =
      demoMergeState.itemsByThread "live" :=
  ⟨(history_merge_preserves_live demoMergeState "W" demoSnapshot 20
      { id := "live", updatedAt := some 5 } "live" (by decide) (by decide)).1,
   (history_merge_preserves_live demoMergeState "W" demoSnapshot 20
      { id := "live", updatedAt := some 5 } "live" (by decide) (by decide)).2.1⟩

/-- When the detached-review guards pass, `handleReviewExited` keeps the
parent map, resets the parent's status, appends the notice exactly when
the `(parent, review)` key is fresh, and marks the parent unread when it
is not the active thread. -/
theorem handleReviewExited_fields (st : ThreadsState) (ws R : String)
    (act : Option String) (now : Nat) (P : String) (ps : ThreadStatus)
    (hp : st.threadParentById R = some P) (hne : P ≠ R)
    (hs : st.threadStatusById P = some ps) (hrev : ps.isReviewing = true) :
    (handleReviewExited st ws R act now).threadParentById = st.threadParentById ∧
    (handleReviewExited st ws R act now).threadStatusById P =
      some { isProcessing := false, isReviewing := false, activeTurnId := none } ∧
    (handleReviewExited st ws R act now).itemsByThread P =
      (if noticeKeyOf P R ∈ st.noticeKeys then st.itemsByThread P
       else st.itemsByThread P ++
         [ConversationItem.message "assistant" (reviewNoticeText R)]) ∧
    (act ≠ some P →
      (handleReviewExited st ws R act now).unreadByThread P = true) := by
  unfold handleReviewExited
  rw [hp]
  dsimp only
  rw [if_neg hne, hs]
  dsimp only
  rw [hrev]
  by_cases hnk : noticeKeyOf P R ∈ st.noticeKeys <;>
    by_cases hact : act ≠ some P <;>
      simp [hnk, hact, markReviewing, markProcessing, setActiveTurnId,
        recordThreadActivity, setThreadTimestamp, addAssistantMessage,
        markUnread, updf, hs]

/-- Function `handleReviewExited` is the identity when no reviewing parent is
attached to the thread. -/
theorem handleReviewExited_noop (st : ThreadsState) (ws R : String)
    (act : Option String) (now : Nat)
    (h : ∀ P ps, st.threadParentById R = some P → P ≠ R →
      st.threadStatusById P = some ps → ps.isReviewing = false) :
    handleReviewExited st ws R act now = st := by
  unfold handleReviewExited
  cases hp : st.threadParentById R with
  | none => rfl
  | some P =>
    dsimp only
    by_cases hpe : P = R
    · rw [if_pos hpe]
    · rw [if_neg hpe]
      cases hstat : st.threadStatusById P with
      | none => rfl
      | some ps =>
        dsimp only
        rw [h P ps hp hpe hstat]
        rfl

/-- Repeating `handleReviewExited` for the same review thread is the
identity on the already-updated state: the first run cleared the parent's
`isReviewing` flag, so the second run takes the early return. -/
theorem handleReviewExited_twice (st : ThreadsState) (ws R : String)
    (act : Option String) (now : Nat) (act' : Option String) (now' : Nat) :
    handleReviewExited (handleReviewExited st ws R act now) ws R act' now' =
      handleReviewExited st ws R act now := by
  by_cases hmain : ∃ P ps, st.threadParentById R = some P ∧ P ≠ R ∧
      st.threadStatusById P = some ps ∧ ps.isReviewing = true
  · obtain ⟨P, ps, hp, hpe, hstat, hrev⟩ := hmain
    obtain ⟨hpar, hstat2, -, -⟩ :=
      handleReviewExited_fields st ws R act now P ps hp hpe hstat hrev
    apply handleReviewExited_noop
    intro P' ps' hP' hne' hs'
    rw [hpar, hp] at hP'
    injection hP' with hPP
    subst hPP
    rw [hstat2] at hs'
    injection hs' with hps
    rw [← hps]
  · have hrev_false : ∀ P ps, st.threadParentById R = some P → P ≠ R →
        st.threadStatusById P = some ps → ps.isReviewing = false := by
      intro P ps hp hne hs
      by_contra hb
      have : ps.isReviewing = true := by
        revert hb
        cases ps.isReviewing <;> simp
      exact hmain ⟨P, ps, hp, hne, hs, this⟩
    have hnoop := handleReviewExited_noop st ws R act now hrev_false
    rw [hnoop]
    exact handleReviewExited_noop st ws R act' now' hrev_false

/-- C4: when a detached review thread `R` with parent `P` reaches a
terminal state, exactly one notice item referencing `R` is appended to
`P`'s item log, `P` is marked unread when it is not the active thread,
and repeating the same terminal transition does not change state again
(in particular, no second notice is appended). -/
theorem detached_review_notice_once (st : ThreadsState) (ws R : String)
    (act : Option String) (now : Nat) (P : String) (ps : ThreadStatus)
    (hp : st.threadParentById R = some P) (hne : P ≠ R)
    (hs : st.threadStatusById P = some ps) (hrev : ps.isReviewing = true)
    (hfresh : noticeKeyOf P R ∉ st.noticeKeys) :
    (handleReviewExited st ws R act now).itemsByThread P =
      st.itemsByThread P ++
        [ConversationItem.message "assistant" (reviewNoticeText R)] ∧
    (act ≠ some P →
      (handleReviewExited st ws R act now).unreadByThread P = true) ∧
    (∀ act' now',
      handleReviewExited (handleReviewExited st ws R act now) ws R act' now' =
        handleReviewExited st ws R act now) := by
  obtain ⟨-, -, hitems, hunread⟩ :=
    handleReviewExited_fields st ws R act now P ps hp hne hs hrev
  refine ⟨?_, hunread, ?_⟩
  · rw [hitems, if_neg hfresh]
  · intro act' now'
    exact handleReviewExited_twice st ws R act now act' now'

/-- Witness for C4 on a concrete reviewing parent `P` and review thread
`R`. -/
theorem detached_review_notice_once_witness :
    (handleReviewExited demoReviewState "W" "R" none 7).itemsByThread "P" =
      demoReviewState.itemsByThread "P" ++
        [ConversationItem.message "assistant" (reviewNoticeText "R")] :=
  (detached_review_notice_once demoReviewState "W" "R" none 7 "P"
    { isProcessing := false, isReviewing := true, activeTurnId := some "r1" }
    (by decide) (by decide) (by decide) rfl (by decide)).1

/-- C1: calling `sendUserMessage` (orchestrator command) on a thread whose
status is already Processing is rejected with `Busy`, mutates no state,
and applies no duplicate `turn/started` event to the thread. -/
theorem busy_sendUserMessage_rejected (st : ThreadsState)
    (workspaceId threadId text : String) (now : Nat)
    (h : ((st.threadStatusById threadId).getD {}).isProcessing = true) :
    orchestratorSendUserMessage st workspaceId threadId text now =
      (st, [], Except.error "Busy") := by
  unfold orchestratorSendUserMessage
  simp [h]

/-- Witness for C1 at a concrete Processing thread. -/
theorem busy_sendUserMessage_rejected_witness :
    orchestratorSendUserMessage demoBusyState "W" "T" "hello" 5 =
      (demoBusyState, [], Except.error "Busy") :=
  busy_sendUserMessage_rejected demoBusyState "W" "T" "hello" 5 (by decide)

/-- C2: the native event `{type:"assistant.turn_start", id:"t1"}` on
workspace `W` translates to the canonical `turn/started` event whose turn
is `{id:"t1", threadId:W}`, and applying `turn/started` makes the thread's
status Processing with `activeTurnId = "t1"`. -/
theorem turn_start_translation (W : String) (d : Option EventData)
    (m : String → Option ThreadStatus) :
    transformEvent W { id := some "t1", type := "assistant.turn_start", data := d } =
      some { workspace_id := W
             message := { method := "turn/started"
                          params := Params.turnP W { id := "t1", threadId := W } } } ∧
    (applyTurnStarted m W "t1" W).map (fun s => (s.isProcessing, s.activeTurnId)) =
      some (true, some "t1") := by
  constructor
  · rfl
  · simp [applyTurnStarted]

/-- C5: every native event whose type is not in the mapping table becomes
a `copilot/<rawType>` passthrough carrying `event.data ?? {}` — the raw
payload verbatim whenever one is present — and no native event is
dropped (`transformEvent` is total). -/
theorem unmapped_event_passthrough (w : String) (e : SessionEvent)
    (h : mapEventToMethod e.type = none) :
    transformEvent w e =
      some { workspace_id := w
             message := { method := "copilot/" ++ e.type
                          params := Params.rawObj (e.data.getD emptyEventData) } } ∧
    (∀ d, e.data = some d →
      transformEvent w e =
        some { workspace_id := w
               message := { method := "copilot/" ++ e.type
                            params := Params.rawObj d } }) ∧
    (∀ e' : SessionEvent, (transformEvent w e').isSome = true) := by
  refine ⟨?_, ?_, ?_⟩
  · unfold transformEvent
    rw [h]
  · intro d hd
    unfold transformEvent
    rw [h, hd]
    rfl
  · intro e'
    unfold transformEvent
    cases mapEventToMethod e'.type <;> rfl

/-- Witness for C5 at the synthetic `session.info` event emitted on
connect. -/
theorem unmapped_event_passthrough_witness :
    transformEvent "W"
        { id := some "connected-1", type := "session.info"
          data := some { message := some "Workspace connected" } } =
      some { workspace_id := "W"
             message := { method := "copilot/session.info"
                          params := Params.rawObj
                            { message := some "Workspace connected" } } } :=
  (unmapped_event_passthrough "W"
    { id := some "connected-1", type := "session.info"
      data := some { message := some "Workspace connected" } } (by decide)).1

/-- C6 counterexample: saving the same unchanged thread state twice — at
two debounce fires, `Date.now()` = 1 then 2 — performs two writes, because
the `savedAt` stamp makes the serialized forms differ.  This refutes "at
most one write" as stated. -/
theorem history_save_unchanged_state_two_writes :
    (saveWorkspaceHistory
        (saveWorkspaceHistory initialHistorySaveState demoMergeState "W" 1)
        demoMergeState "W" 2).writes =
      [("W", buildThreadHistorySnapshot demoMergeState "W" 1),
       ("W", buildThreadHistorySnapshot demoMergeState "W" 2)] ∧
    buildThreadHistorySnapshot demoMergeState "W" 1 ≠
      buildThreadHistorySnapshot demoMergeState "W" 2 := by
  constructor
  · decide
  · decide

/-- C6 amended: a history save writes if and only if the built snapshot's
serialized form differs from the last write recorded for the workspace;
because `buildThreadHistorySnapshot` stamps `savedAt := Date.now()` into
the compared payload, re-saving an unchanged state is write-free only
when the repeated save serializes identically (same `savedAt`), in which
case the second save is the identity. -/
theorem history_save_dedup_amended (s : HistorySaveState) (st : ThreadsState)
    (workspaceId : String) (now : Nat) :
    ((saveWorkspaceHistory s st workspaceId now).writes =
        s.writes ++ [(workspaceId, buildThreadHistorySnapshot st workspaceId now)] ↔
      s.lastSavedHistory workspaceId ≠
        some (buildThreadHistorySnapshot st workspaceId now)) ∧
    ((saveWorkspaceHistory s st workspaceId now).writes = s.writes ↔
      s.lastSavedHistory workspaceId =
        some (buildThreadHistorySnapshot st workspaceId now)) ∧
    saveWorkspaceHistory (saveWorkspaceHistory s st workspaceId now)
        st workspaceId now =
      saveWorkspaceHistory s st workspaceId now := by
  by_cases h : s.lastSavedHistory workspaceId =
      some (buildThreadHistorySnapshot st workspaceId now)
  · refine ⟨?_, ?_, ?_⟩
    · simp [saveWorkspaceHistory, h]
    · simp [saveWorkspaceHistory, h]
    · simp [saveWorkspaceHistory, h]
  · refine ⟨?_, ?_, ?_⟩
    · simp [saveWorkspaceHistory, h]
    · have hlen : s.writes ++
          [(workspaceId, buildThreadHistorySnapshot st workspaceId now)] ≠
          s.writes := by
        intro he
        have := congrArg List.length he
        simp at this
      simp [saveWorkspaceHistory, h, hlen]
    · unfold saveWorkspaceHistory
      simp [h, updf]

/-- C7: interrupting a workspace whose backend has no active session (and
hence no active turn) is a no-op: the client map is unchanged and
`session.abort()` is never reached, so no error can occur. -/
theorem interrupt_no_active_turn_noop (st : SdkState) (workspaceId : String)
    (h : ∀ w, st.workspaceClients workspaceId = some w → w.session = none) :
    interruptTurn st workspaceId = (st, false) := by
  unfold interruptTurn abortSession
  cases hw : st.workspaceClients workspaceId with
  | none => rfl
  | some w =>
    simp only [h w hw]

/-- Witness for C7 on a state with no connected workspaces. -/
theorem interrupt_no_active_turn_noop_witness :
    interruptTurn demoSdkState "W" = (demoSdkState, false) :=
  interrupt_no_active_turn_noop demoSdkState "W"
    (fun w hw => by simp [demoSdkState] at hw)

/-- C8: the protocol adapter is deterministic: the same native event
always yields the same canonical event (it is a pure function of its
arguments). -/
theorem transformEvent_deterministic (w1 w2 : String) (e1 e2 : SessionEvent)
    (hw : w1 = w2) (he : e1 = e2) :
    transformEvent w1 e1 = transformEvent w2 e2 := by
  rw [hw, he]

/-- Witness for C8 at a concrete event, translated twice. -/
theorem transformEvent_deterministic_witness :
    transformEvent "W" { id := some "m1", type := "assistant.message"
                         data := some { content := some "hi" } } =
      transformEvent "W" { id := some "m1", type := "assistant.message"
                           data := some { content := some "hi" } } :=
  transformEvent_deterministic "W" "W" _ _ rfl rfl

/-- C9: `createSession`, `listModels` and `getAuthStatus` on a workspace
id absent from the connection map all reject with "Workspace <id> is not
connected" and leave the connection map unchanged. -/
theorem unknown_workspace_rejected (st : SdkState)
    (workspaceId newSessionId : String)
    (clientModels : List (String × Option String)) (auth : AuthStatus)
    (h : st.workspaceClients workspaceId = none) :
    createSession st workspaceId newSessionId =
      (st, Except.error (notConnectedError workspaceId)) ∧
    listModels st workspaceId clientModels =
      (st, Except.error (notConnectedError workspaceId)) ∧
    getAuthStatus st workspaceId auth =
      (st, Except.error (notConnectedError workspaceId)) := by
  unfold createSession listModels getAuthStatus
  rw [h]
  exact ⟨rfl, rfl, rfl⟩

/-- Witness for C9 on a state with no connected workspaces. -/
theorem unknown_workspace_rejected_witness :
    createSession demoSdkState "W" "s1" =
      (demoSdkState, Except.error (notConnectedError "W")) ∧
    listModels demoSdkState "W" [("m", none)] =
      (demoSdkState, Except.error (notConnectedError "W")) ∧
    getAuthStatus demoSdkState "W" { isAuthenticated := true, login := some "me" } =
      (demoSdkState, Except.error (notConnectedError "W")) :=
  unknown_workspace_rejected demoSdkState "W" "s1" [("m", none)]
    { isAuthenticated := true, login := some "me" } rfl

/-- C10: every call to the backend adapter's `sendUserMessage` emits
exactly one `turn/started` event, whose turn id is the locally generated
`turn-<now>`, and the emission does not depend on the backend send
outcome — it happens even when the send fails. -/
theorem sendUserMessage_emits_turn_started (workspaceId threadId text : String)
    (now : Nat) (sendResult : Except String String) :
    (sendUserMessage workspaceId threadId text now sendResult).1 =
      [{ workspace_id := workspaceId
         message := { method := "turn/started"
                      params := Params.turnP threadId
                        { id := "turn-" ++ toString now, threadId := threadId } } }] ∧
    (∀ errMsg,
      (sendUserMessage workspaceId threadId text now (Except.error errMsg)).1 =
        (sendUserMessage workspaceId threadId text now sendResult).1) :=
  ⟨rfl, fun _ => rfl⟩

end CopilotMonitor
